import Mathlib

/-!
# Pebble "classio" watchface (`src/classio.c`)

A shallow embedding of the watchface's callbacks.  The program is glue code over
the Pebble runtime, so the embedding has two layers:

* the host contract (graphics context, layers, services, `strftime`), modelled as
  explicit state passing over `World`;
* the program's own functions, translated statement by statement and keeping
  their C names.
-/

namespace Classio

/-! ## Graphics primitives -/

/-- The colours the program uses. -/
inductive GColor where
  | GColorWhite
  | GColorBlack
  | GColorRed
  | GColorClear
  deriving DecidableEq, Repr

/-- Corner masks of `graphics_fill_rect`; the program only passes `GCornerNone`. -/
inductive GCornerMask where
  | GCornerNone
  deriving DecidableEq, Repr

/-- A point, `GPoint(x, y)`. -/
structure GPoint where
  x : Int
  y : Int
  deriving DecidableEq, Repr

/-- A rectangle, `GRect(x, y, w, h)`: origin and size. -/
structure GRect where
  x : Int
  y : Int
  w : Int
  h : Int
  deriving DecidableEq, Repr

/-- A path description: the `.points` array (`.num_points` is its length). -/
structure GPathInfo where
  points : List GPoint
  deriving DecidableEq, Repr

/-- The field `.num_points` of a path description. -/
def GPathInfo.num_points (i : GPathInfo) : Nat := i.points.length

/-- A pointer to a host-allocated object; `none` is `NULL`. -/
abbrev Ptr := Option Nat

/-- One rendering command as it reaches the display, with the colour and
stroke width that were current in the graphics context when it was issued. -/
inductive DrawOp where
  | draw_rect (rect : GRect) (stroke : GColor)
  | fill_rect (rect : GRect) (corner_radius : Nat) (corners : GCornerMask) (fill : GColor)
  | fill_circle (center : GPoint) (radius : Nat) (fill : GColor)
  | draw_outline (path : Ptr) (stroke : GColor) (width : Nat)
  deriving DecidableEq, Repr

/-- The graphics context handed to an update procedure: its current drawing
attributes and the commands issued on it so far, oldest first. -/
structure GContext where
  stroke_color : GColor
  fill_color : GColor
  stroke_width : Nat
  ops : List DrawOp
  deriving DecidableEq, Repr

/-- Host call `graphics_context_set_stroke_color`. -/
def graphics_context_set_stroke_color (ctx : GContext) (c : GColor) : GContext :=
  { ctx with stroke_color := c }

/-- Host call `graphics_context_set_fill_color`. -/
def graphics_context_set_fill_color (ctx : GContext) (c : GColor) : GContext :=
  { ctx with fill_color := c }

/-- Host call `graphics_context_set_stroke_width`. -/
def graphics_context_set_stroke_width (ctx : GContext) (n : Nat) : GContext :=
  { ctx with stroke_width := n }

/-- Host call `graphics_draw_rect`: a one-pixel outline in the stroke colour. -/
def graphics_draw_rect (ctx : GContext) (rect : GRect) : GContext :=
  { ctx with ops := ctx.ops ++ [DrawOp.draw_rect rect ctx.stroke_color] }

/-- Host call `graphics_fill_rect`: a filled rectangle in the fill colour. -/
def graphics_fill_rect (ctx : GContext) (rect : GRect) (corner_radius : Nat)
    (corners : GCornerMask) : GContext :=
  { ctx with ops := ctx.ops ++ [DrawOp.fill_rect rect corner_radius corners ctx.fill_color] }

/-- Host call `graphics_fill_circle`: a filled disc in the fill colour. -/
def graphics_fill_circle (ctx : GContext) (center : GPoint) (radius : Nat) : GContext :=
  { ctx with ops := ctx.ops ++ [DrawOp.fill_circle center radius ctx.fill_color] }

/-- Host call `gpath_draw_outline`: the outline of the path behind the pointer,
in the stroke colour and stroke width. -/
def gpath_draw_outline (ctx : GContext) (path : Ptr) : GContext :=
  { ctx with ops := ctx.ops ++ [DrawOp.draw_outline path ctx.stroke_color ctx.stroke_width] }

/-- The commands an update procedure issues when it runs on `ctx`: the log of
the context it returns, started from an empty log. -/
def issued (proc : GContext → GContext) (ctx : GContext) : List DrawOp :=
  (proc { ctx with ops := [] }).ops

/-- Whether a command is an interior fill (`graphics_fill_rect`). -/
def DrawOp.isFillRect : DrawOp → Bool
  | DrawOp.fill_rect _ _ _ _ => true
  | _ => false

/-- Height left inside a rectangle drawn by `graphics_draw_rect`, whose
outline takes one pixel at the top and one at the bottom. -/
def GRect.interior_height (r : GRect) : Int := r.h - 2

/-! ## Binary64 arithmetic of the battery fill

`int gone = 13 - 0.13 * charge_percent;` is evaluated in `double`.  Every value
that occurs is an integer multiple of `2^-55`, so the doubles are carried as
integer counts of that unit. -/

/-- Quotient `n / d` rounded to nearest, ties to even. -/
def div_rne (n d : Nat) : Nat :=
  let q := n / d
  let r := n % d
  if 2 * r < d then q
  else if d < 2 * r then q + 1
  else if q % 2 = 0 then q else q + 1

/-- Worker of `bit_length`; the first argument bounds the number of halvings. -/
def bit_length_aux : Nat → Nat → Nat
  | 0, _ => 0
  | fuel + 1, n => if n = 0 then 0 else bit_length_aux fuel (n / 2) + 1

/-- Number of binary digits of `n` (`0` for `0`). -/
def bit_length (n : Nat) : Nat := bit_length_aux n n

/-- Rounding to a 53-bit significand, nearest with ties to even: the rounding
of every binary64 operation.  The argument is a count of units `2^-55`. -/
def rn53 (n : Nat) : Nat :=
  let s := bit_length n - 53
  div_rne n (2 ^ s) * 2 ^ s

/-- The literal `0.13` as a double, in units of `2^-55`: `13/100` rounded to
nearest (the quotient already has 53 bits). -/
def double_0_13 : Nat := div_rne (13 * 2 ^ 55) 100

/-- The value of `gone` in `draw_battery_proc` for a given `charge_percent`:
`0.13 * charge_percent` rounded, subtracted from `13.0` and rounded again, then
converted to `int`, which truncates toward zero. -/
def gone (charge_percent : Nat) : Int :=
  let prod : Nat := rn53 (double_0_13 * charge_percent)
  let diff : Int := (13 * 2 ^ 55 : Int) - (prod : Int)
  let rounded : Int := Int.sign diff * (rn53 diff.natAbs : Int)
  Int.tdiv rounded (2 ^ 55)

/-- Truncation of a rational toward zero. -/
def trunc_toward_zero (x : ℚ) : Int := if 0 ≤ x then ⌊x⌋ else ⌈x⌉

/-- The spec's reading of `gone`: `13 - 13p/100` over exact rationals,
truncated toward zero. -/
def gone_exact (p : Nat) : Int := trunc_toward_zero (13 - 13 * (p : ℚ) / 100)

/-! ## Host runtime state -/

/-- The program's functions that it registers with the host as callbacks. -/
inductive Callback where
  | bg_update_proc
  | draw_battery_proc
  | draw_bluetooth_proc
  | handle_battery
  | handle_bluetooth
  | handle_minute_tick
  deriving DecidableEq, Repr

/-- Tick granularities; the program only uses `SECOND_UNIT`. -/
inductive TimeUnits where
  | SECOND_UNIT
  deriving DecidableEq, Repr

/-- System fonts, by key; the program only uses `FONT_KEY_BITHAM_42_LIGHT`. -/
inductive GFont where
  | FONT_KEY_BITHAM_42_LIGHT
  deriving DecidableEq, Repr

/-- Text alignments; the program only uses `GTextAlignmentCenter`. -/
inductive GTextAlignment where
  | GTextAlignmentCenter
  deriving DecidableEq, Repr

/-- Character arrays of the program that the host may be given a pointer to. -/
inductive CharPtr where
  | s_time_text
  deriving DecidableEq, Repr

/-- The result of `battery_state_service_peek`. -/
structure BatteryChargeState where
  charge_percent : Nat
  is_charging : Bool
  is_plugged : Bool
  deriving DecidableEq, Repr

/-- The fields of `struct tm` that the `%T` conversion reads. -/
structure Tm where
  tm_sec : Nat
  tm_min : Nat
  tm_hour : Nat
  deriving DecidableEq, Repr

/-- A live `Layer` object. -/
structure Layer where
  id : Nat
  frame : GRect
  update_proc : Option Callback
  dirty : Bool
  deriving DecidableEq, Repr

/-- A live `TextLayer` object; an attribute that was never set is `none`.  The
text is held as the pointer that was passed in, not as a copy. -/
structure TextLayer where
  id : Nat
  frame : GRect
  text : Option CharPtr
  text_color : Option GColor
  background_color : Option GColor
  font : Option GFont
  text_alignment : Option GTextAlignment
  deriving DecidableEq, Repr

/-- A live `GPath` object and the description it was created from. -/
structure GPath where
  id : Nat
  info : GPathInfo
  deriving DecidableEq, Repr

/-- The window handed to the load and unload handlers, with its root layer
(owned by the window, not by the program). -/
structure Window where
  root_layer : Layer
  deriving DecidableEq, Repr

/-- The host runtime together with the program's static variables. -/
structure World where
  /-- Host: the next object address to hand out. -/
  next_id : Nat
  /-- Host: layers made by `layer_create` and not yet destroyed. -/
  layers : List Layer
  /-- Host: text layers made by `text_layer_create` and not yet destroyed. -/
  text_layers : List TextLayer
  /-- Host: paths made by `gpath_create` and not yet destroyed. -/
  gpaths : List GPath
  /-- Host: parent and child of every `layer_add_child` still in force. -/
  children : List (Nat × Nat)
  /-- Host: the tick-timer subscription, if any. -/
  tick_subscription : Option (TimeUnits × Callback)
  /-- Host: the battery-state subscription, if any. -/
  battery_subscription : Option Callback
  /-- Host: the connection-service subscription, if any. -/
  connection_subscription : Option Callback
  /-- Host: every address passed to a destroy call, in call order. -/
  destroyed : List Nat
  /-- Host: the current battery state. -/
  battery : BatteryChargeState
  /-- Host: whether the companion app is connected. -/
  connected : Bool
  /-- Host: the clock, seconds since the epoch. -/
  now : Nat
  /-- Host: offset of local time from UTC, in seconds. -/
  gmtoff : Int
  /-- C library: the bytes a failing `strftime` leaves in the array. -/
  strftime_residue : List Char
  /-- Program: `static Layer *s_simple_bg_layer`. -/
  s_simple_bg_layer : Ptr
  /-- Program: `static TextLayer *s_time_layer`. -/
  s_time_layer : Ptr
  /-- Program: `static Layer *s_battery_icon_layer`. -/
  s_battery_icon_layer : Ptr
  /-- Program: `static Layer *s_bluetooth_icon_layer`. -/
  s_bluetooth_icon_layer : Ptr
  /-- Program: `static GPath *s_bluetooth_path_ptr`. -/
  s_bluetooth_path_ptr : Ptr
  /-- Program: `static GPath *s_strikeout_path_ptr`. -/
  s_strikeout_path_ptr : Ptr
  /-- Program: `static char s_time_text[]` inside `handle_minute_tick`. -/
  s_time_text : List Char
  deriving DecidableEq, Repr

/-- The terminating byte of a C string. -/
def NUL : Char := Char.ofNat 0

/-- The initializer `"00:00"` of `s_time_text`, terminator included. -/
def s_time_text_init : List Char := ['0', '0', ':', '0', '0', NUL]

/-- The value of `sizeof(s_time_text)`: the initializer with its terminator. -/
def sizeof_s_time_text : Nat := s_time_text_init.length

/-- The world at process start: nothing allocated, nothing subscribed, the
static pointers `NULL` and the static array holding its initializer. -/
def World.start (battery : BatteryChargeState) (connected : Bool) (now : Nat) (gmtoff : Int)
    (strftime_residue : List Char) : World :=
  { next_id := 0, layers := [], text_layers := [], gpaths := [], children := [],
    tick_subscription := none, battery_subscription := none, connection_subscription := none,
    destroyed := [], battery := battery, connected := connected, now := now, gmtoff := gmtoff,
    strftime_residue := strftime_residue,
    s_simple_bg_layer := none, s_time_layer := none, s_battery_icon_layer := none,
    s_bluetooth_icon_layer := none, s_bluetooth_path_ptr := none, s_strikeout_path_ptr := none,
    s_time_text := s_time_text_init }

/-! ### Layers -/

/-- Host call `window_get_root_layer`. -/
def window_get_root_layer (window : Window) : Layer := window.root_layer

/-- Host call `layer_get_frame`. -/
def layer_get_frame (layer : Layer) : GRect := layer.frame

/-- Host call `layer_get_bounds`: the frame moved to the origin. -/
def layer_get_bounds (layer : Layer) : GRect := { layer.frame with x := 0, y := 0 }

/-- Host call `layer_create`: a new live layer at a fresh address. -/
def layer_create (w : World) (frame : GRect) : Ptr × World :=
  (some w.next_id,
   { w with next_id := w.next_id + 1,
            layers := w.layers ++ [{ id := w.next_id, frame := frame, update_proc := none,
                                     dirty := false }] })

/-- Host call `layer_set_update_proc`. -/
def layer_set_update_proc (w : World) (layer : Ptr) (proc : Callback) : World :=
  { w with layers := w.layers.map fun l =>
      if some l.id = layer then { l with update_proc := some proc } else l }

/-- Host call `layer_add_child`. -/
def layer_add_child (w : World) (parent : Layer) (child : Ptr) : World :=
  match child with
  | none => w
  | some c => { w with children := w.children ++ [(parent.id, c)] }

/-- Host call `layer_mark_dirty`. -/
def layer_mark_dirty (w : World) (layer : Ptr) : World :=
  { w with layers := w.layers.map fun l =>
      if some l.id = layer then { l with dirty := true } else l }

/-- Host call `layer_destroy`: the layer leaves its parent and stops being live. -/
def layer_destroy (w : World) (layer : Ptr) : World :=
  match layer with
  | none => w
  | some i =>
    { w with layers := w.layers.filter fun l => l.id ≠ i,
             children := w.children.filter fun pc => pc.2 ≠ i,
             destroyed := w.destroyed ++ [i] }

/-! ### Text layers -/

/-- Host call `text_layer_create`: a new live text layer at a fresh address. -/
def text_layer_create (w : World) (frame : GRect) : Ptr × World :=
  (some w.next_id,
   { w with next_id := w.next_id + 1,
            text_layers := w.text_layers ++ [{ id := w.next_id, frame := frame, text := none,
                                               text_color := none, background_color := none,
                                               font := none, text_alignment := none }] })

/-- Update the text layer behind a pointer. -/
def text_layer_update (w : World) (text_layer : Ptr) (f : TextLayer → TextLayer) : World :=
  { w with text_layers := w.text_layers.map fun t => if some t.id = text_layer then f t else t }

/-- Host call `text_layer_set_text_color`. -/
def text_layer_set_text_color (w : World) (text_layer : Ptr) (c : GColor) : World :=
  text_layer_update w text_layer fun t => { t with text_color := some c }

/-- Host call `text_layer_set_background_color`. -/
def text_layer_set_background_color (w : World) (text_layer : Ptr) (c : GColor) : World :=
  text_layer_update w text_layer fun t => { t with background_color := some c }

/-- Host call `fonts_get_system_font`. -/
def fonts_get_system_font (key : GFont) : GFont := key

/-- Host call `text_layer_set_font`. -/
def text_layer_set_font (w : World) (text_layer : Ptr) (font : GFont) : World :=
  text_layer_update w text_layer fun t => { t with font := some font }

/-- Host call `text_layer_set_text_alignment`. -/
def text_layer_set_text_alignment (w : World) (text_layer : Ptr) (a : GTextAlignment) : World :=
  text_layer_update w text_layer fun t => { t with text_alignment := some a }

/-- Host call `text_layer_set_text`: the layer keeps the pointer. -/
def text_layer_set_text (w : World) (text_layer : Ptr) (text : CharPtr) : World :=
  text_layer_update w text_layer fun t => { t with text := some text }

/-- Host call `text_layer_get_layer`: the layer embedded at the start of the
text layer, hence at the same address. -/
def text_layer_get_layer (text_layer : Ptr) : Ptr := text_layer

/-- Host call `text_layer_destroy`. -/
def text_layer_destroy (w : World) (text_layer : Ptr) : World :=
  match text_layer with
  | none => w
  | some i =>
    { w with text_layers := w.text_layers.filter fun t => t.id ≠ i,
             children := w.children.filter fun pc => pc.2 ≠ i,
             destroyed := w.destroyed ++ [i] }

/-! ### Paths and services -/

/-- Host call `gpath_create`: a new live path at a fresh address. -/
def gpath_create (w : World) (init : GPathInfo) : Ptr × World :=
  (some w.next_id,
   { w with next_id := w.next_id + 1, gpaths := w.gpaths ++ [{ id := w.next_id, info := init }] })

/-- Host call `battery_state_service_peek`. -/
def battery_state_service_peek (w : World) : BatteryChargeState := w.battery

/-- Host call `battery_state_service_subscribe`. -/
def battery_state_service_subscribe (w : World) (handler : Callback) : World :=
  { w with battery_subscription := some handler }

/-- Host call `battery_state_service_unsubscribe`. -/
def battery_state_service_unsubscribe (w : World) : World :=
  { w with battery_subscription := none }

/-- Host call `connection_service_peek_pebble_app_connection`. -/
def connection_service_peek_pebble_app_connection (w : World) : Bool := w.connected

/-- Host call `connection_service_subscribe`, with the handler given in the
field `.pebble_app_connection_handler`. -/
def connection_service_subscribe (w : World) (pebble_app_connection_handler : Callback) : World :=
  { w with connection_subscription := some pebble_app_connection_handler }

/-- Host call `connection_service_unsubscribe`. -/
def connection_service_unsubscribe (w : World) : World :=
  { w with connection_subscription := none }

/-- Host call `tick_timer_service_subscribe`. -/
def tick_timer_service_subscribe (w : World) (tick_units : TimeUnits) (handler : Callback) :
    World :=
  { w with tick_subscription := some (tick_units, handler) }

/-- Host call `tick_timer_service_unsubscribe`. -/
def tick_timer_service_unsubscribe (w : World) : World :=
  { w with tick_subscription := none }

/-! ### C library: time and `strftime` -/

/-- C library call `time(NULL)`. -/
def time (w : World) : Nat := w.now

/-- C library call `localtime`: the time of day of a timestamp, shifted by the
host's offset from UTC. -/
def localtime (w : World) (t : Nat) : Tm :=
  let d : Nat := (((t : Int) + w.gmtoff) % 86400).toNat
  { tm_sec := d % 60, tm_min := d / 60 % 60, tm_hour := d / 3600 }

/-- A field printed as by `%02d`: at least two digits, zero-padded. -/
def two_digits (n : Nat) : List Char :=
  let ds := Nat.toDigits 10 n
  if ds.length < 2 then '0' :: ds else ds

/-- The text of one `strftime` conversion, for the conversions that only read
the time of day: `%H`, `%M`, `%S`, `%R` (`%H:%M`), `%T` (`%H:%M:%S`), `%%`. -/
def strftime_conversion (c : Char) (t : Tm) : Option (List Char) :=
  if c = 'H' then some (two_digits t.tm_hour)
  else if c = 'M' then some (two_digits t.tm_min)
  else if c = 'S' then some (two_digits t.tm_sec)
  else if c = 'R' then some (two_digits t.tm_hour ++ [':'] ++ two_digits t.tm_min)
  else if c = 'T' then
    some (two_digits t.tm_hour ++ [':'] ++ two_digits t.tm_min ++ [':'] ++ two_digits t.tm_sec)
  else if c = '%' then some ['%']
  else none

/-- The characters a format expands to, terminator not included; `none` when
the format has a conversion outside `strftime_conversion`. -/
def strftime_expand : List Char → Tm → Option (List Char)
  | [], _ => some []
  | c :: rest, t =>
    if c = '%' then
      match rest with
      | [] => none
      | d :: rest2 =>
        match strftime_conversion d t, strftime_expand rest2 t with
        | some a, some b => some (a ++ b)
        | _, _ => none
    else
      match strftime_expand rest t with
      | some b => some (c :: b)
      | none => none

/-- Store bytes at the start of an array, leaving the rest of it as it was. -/
def store (s : List Char) (bytes : List Char) : List Char :=
  bytes ++ s.drop bytes.length

/-- C library call `strftime(s, maxsize, format, timeptr)`, returning the
result and the array afterwards.  When the expansion and its terminator fit in
`maxsize` bytes they are stored and the length is returned.  Otherwise the
call returns `0` and the contents of the array are indeterminate (C11
7.27.3.5p8): the implementation leaves `residue` in its first `maxsize` bytes.
A format outside the modelled conversions is treated in the same way. -/
def strftime (s : List Char) (maxsize : Nat) (format : List Char) (timeptr : Tm)
    (residue : List Char) : Nat × List Char :=
  match strftime_expand format timeptr with
  | some out =>
    if out.length + 1 ≤ maxsize then (out.length, store s (out ++ [NUL]))
    else (0, store s (residue.take maxsize))
  | none => (0, store s (residue.take maxsize))

/-- The C string that starts an array: the bytes before the first terminator.
When the array holds no terminator the result is all of the array; reading on
past its end is undefined behaviour and is not modelled. -/
def cstr (a : List Char) : List Char := a.takeWhile fun c => c ≠ NUL

/-- The characters behind a text pointer. -/
def World.deref (w : World) : CharPtr → List Char
  | CharPtr.s_time_text => cstr w.s_time_text

/-- The text a text layer shows: what its text pointer points at now;
`none` when the layer is not live or no text was set. -/
def World.displayed_text (w : World) (text_layer : Ptr) : Option (List Char) :=
  match w.text_layers.find? fun t => some t.id = text_layer with
  | some t => t.text.map w.deref
  | none => none

/-! ## The program -/

/-- The constant `BLUETOOTH_PATH_INFO`. -/
def BLUETOOTH_PATH_INFO : GPathInfo :=
  { points := [⟨2, 0⟩, ⟨7, 5⟩, ⟨2, 10⟩, ⟨7, 15⟩, ⟨2, 20⟩, ⟨2, 0⟩] }

/-- The constant `STRIKEOUT_PATH_INFO`. -/
def STRIKEOUT_PATH_INFO : GPathInfo :=
  { points := [⟨0, 0⟩, ⟨10, 20⟩, ⟨5, 10⟩, ⟨0, 20⟩, ⟨10, 0⟩, ⟨5, 10⟩] }

/-- Update procedure `bg_update_proc`. -/
def bg_update_proc (layer : Layer) (ctx : GContext) : GContext :=
  let ctx := graphics_context_set_fill_color ctx GColor.GColorWhite
  let ctx := graphics_fill_rect ctx (layer_get_bounds layer) 0 GCornerMask.GCornerNone
  let ctx := graphics_context_set_fill_color ctx GColor.GColorBlack
  graphics_fill_circle ctx ⟨Int.tdiv (layer_get_bounds layer).w 2, 470⟩ 330

/-- Battery handler `handle_battery`. -/
def handle_battery (w : World) (_charge_state : BatteryChargeState) : World :=
  layer_mark_dirty w w.s_battery_icon_layer

/-- The housing rectangle of the battery glyph, `GRect(0, 2, 9, 18)`. -/
def battery_housing : GRect := ⟨0, 2, 9, 18⟩

/-- Update procedure `draw_battery_proc`. -/
def draw_battery_proc (w : World) (_layer : Ptr) (ctx : GContext) : GContext :=
  let ctx := graphics_context_set_stroke_color ctx GColor.GColorWhite
  let ctx := graphics_context_set_fill_color ctx GColor.GColorWhite
  let ctx := graphics_draw_rect ctx ⟨2, 0, 5, 2⟩
  let ctx := graphics_draw_rect ctx battery_housing
  let gone : Int := gone (battery_state_service_peek w).charge_percent
  if 14 - gone ≥ 2 then
    graphics_fill_rect ctx ⟨2, 4 + gone, 5, 14 - gone⟩ 0 GCornerMask.GCornerNone
  else ctx

/-- Connection handler `handle_bluetooth`. -/
def handle_bluetooth (w : World) (_connected : Bool) : World :=
  layer_mark_dirty w w.s_bluetooth_icon_layer

/-- Function `setup_bluetooth_path`. -/
def setup_bluetooth_path (w : World) : World :=
  let (p, w) := gpath_create w BLUETOOTH_PATH_INFO
  let w := { w with s_bluetooth_path_ptr := p }
  let (q, w) := gpath_create w STRIKEOUT_PATH_INFO
  { w with s_strikeout_path_ptr := q }

/-- Update procedure `draw_bluetooth_proc`. -/
def draw_bluetooth_proc (w : World) (_layer : Ptr) (ctx : GContext) : GContext :=
  let connected := connection_service_peek_pebble_app_connection w
  let ctx := graphics_context_set_stroke_color ctx GColor.GColorWhite
  let ctx := graphics_context_set_stroke_width ctx 1
  let ctx := gpath_draw_outline ctx w.s_bluetooth_path_ptr
  if !connected then
    let ctx := graphics_context_set_stroke_color ctx GColor.GColorRed
    let ctx := graphics_context_set_stroke_width ctx 2
    gpath_draw_outline ctx w.s_strikeout_path_ptr
  else ctx

/-- Tick handler `handle_minute_tick`. -/
def handle_minute_tick (w : World) (tick_time : Tm) (_units_changed : TimeUnits) : World :=
  let r := strftime w.s_time_text sizeof_s_time_text ['%', 'T'] tick_time w.strftime_residue
  let w := { w with s_time_text := r.2 }
  text_layer_set_text w w.s_time_layer CharPtr.s_time_text

/-- Window handler `main_window_load`. -/
def main_window_load (w : World) (window : Window) : World :=
  let window_layer := window_get_root_layer window
  let bounds := layer_get_frame window_layer
  let (p, w) := layer_create w bounds
  let w := { w with s_simple_bg_layer := p }
  let w := layer_set_update_proc w w.s_simple_bg_layer Callback.bg_update_proc
  let w := layer_add_child w window_layer w.s_simple_bg_layer
  let (p, w) := text_layer_create w ⟨0, 60, bounds.w, 48⟩
  let w := { w with s_time_layer := p }
  let w := text_layer_set_text_color w w.s_time_layer GColor.GColorBlack
  let w := text_layer_set_background_color w w.s_time_layer GColor.GColorClear
  let w := text_layer_set_font w w.s_time_layer
    (fonts_get_system_font GFont.FONT_KEY_BITHAM_42_LIGHT)
  let w := text_layer_set_text_alignment w w.s_time_layer GTextAlignment.GTextAlignmentCenter
  let (p, w) := layer_create w ⟨Int.tdiv bounds.w 2 - 15, 150, 9, 20⟩
  let w := { w with s_battery_icon_layer := p }
  let w := layer_set_update_proc w w.s_battery_icon_layer Callback.draw_battery_proc
  let w := battery_state_service_subscribe w Callback.handle_battery
  let (p, w) := layer_create w ⟨Int.tdiv bounds.w 2 + 6, 150, 10, 20⟩
  let w := { w with s_bluetooth_icon_layer := p }
  let w := layer_set_update_proc w w.s_bluetooth_icon_layer Callback.draw_bluetooth_proc
  let w := setup_bluetooth_path w
  let w := connection_service_subscribe w Callback.handle_bluetooth
  let now := time w
  let current_time := localtime w now
  let w := handle_minute_tick w current_time TimeUnits.SECOND_UNIT
  let w := tick_timer_service_subscribe w TimeUnits.SECOND_UNIT Callback.handle_minute_tick
  let w := layer_add_child w window_layer (text_layer_get_layer w.s_time_layer)
  let w := layer_add_child w window_layer w.s_battery_icon_layer
  let w := layer_add_child w window_layer w.s_bluetooth_icon_layer
  let w := handle_battery w (battery_state_service_peek w)
  handle_bluetooth w (connection_service_peek_pebble_app_connection w)

/-- Window handler `main_window_unload`. -/
def main_window_unload (w : World) (_window : Window) : World :=
  let w := tick_timer_service_unsubscribe w
  let w := connection_service_unsubscribe w
  let w := battery_state_service_unsubscribe w
  let w := layer_destroy w w.s_simple_bg_layer
  let w := layer_destroy w w.s_battery_icon_layer
  let w := layer_destroy w w.s_bluetooth_icon_layer
  text_layer_destroy w w.s_time_layer

/-! ## Observations used by the properties -/

/-- The three notification services of the host. -/
inductive Service where
  | tick_timer_service
  | battery_state_service
  | connection_service
  deriving DecidableEq, Repr

/-- The services on which a subscription is outstanding. -/
def World.subscriptions (w : World) : List Service :=
  (if w.tick_subscription.isSome then [Service.tick_timer_service] else [])
    ++ (if w.battery_subscription.isSome then [Service.battery_state_service] else [])
    ++ (if w.connection_subscription.isSome then [Service.connection_service] else [])

/-- The addresses of the live layers: the `Layer`s and the `TextLayer`s. -/
def World.live_layers (w : World) : List Nat :=
  w.layers.map (fun l => l.id) ++ w.text_layers.map (fun t => t.id)

/-- The addresses of all live host-allocated objects. -/
def World.live_objects (w : World) : List Nat :=
  w.live_layers ++ w.gpaths.map (fun g => g.id)

/-- The description of the live path behind a pointer, if there is one. -/
def World.gpath_info (w : World) (path : Ptr) : Option GPathInfo :=
  (w.gpaths.find? fun g => some g.id = path).map fun g => g.info

/-- The clock string the specification describes: `HH:MM:SS`, every field
written with exactly two decimal digits. -/
def spec_clock_string (t : Tm) : List Char :=
  [Nat.digitChar (t.tm_hour / 10), Nat.digitChar (t.tm_hour % 10), ':',
   Nat.digitChar (t.tm_min / 10), Nat.digitChar (t.tm_min % 10), ':',
   Nat.digitChar (t.tm_sec / 10), Nat.digitChar (t.tm_sec % 10)]

/-- The display of a 144 by 168 watch, as a window. -/
def window_144x168 : Window :=
  { root_layer := { id := 1000, frame := ⟨0, 0, 144, 168⟩, update_proc := none, dirty := false } }

/-- A graphics context on which nothing has been drawn yet. -/
def blank_context : GContext :=
  { stroke_color := GColor.GColorBlack, fill_color := GColor.GColorBlack, stroke_width := 1,
    ops := [] }

/-- A battery state with the given charge, on battery power. -/
def discharging (charge_percent : Nat) : BatteryChargeState :=
  { charge_percent := charge_percent, is_charging := false, is_plugged := false }

/-! ## Battery fill: arithmetic -/

/-- The double nearest to `0.13` has a 53-bit significand in units of `2^-55`,
so `double_0_13` is a double. -/
theorem double_0_13_normal : 2 ^ 52 ≤ double_0_13 ∧ double_0_13 < 2 ^ 53 := by
  decide

/-- On the whole range of `charge_percent` the binary64 evaluation of `gone`
is the integer quotient of `1300 - 13 p` by `100`. -/
theorem gone_eq_div (p : Nat) (hp : p ≤ 100) : gone p = ((1300 - 13 * p) / 100 : Nat) := by
  interval_cases p <;> decide

/-- The exact rational reading of `gone` is the same integer quotient. -/
theorem gone_exact_eq_div (p : Nat) (hp : p ≤ 100) :
    gone_exact p = ((1300 - 13 * p) / 100 : Nat) := by
  have hx : (13 - 13 * (p : ℚ) / 100) = ((1300 - 13 * p : Nat) : ℚ) / ((100 : Nat) : ℚ) := by
    rw [Nat.cast_sub (by omega)]
    push_cast
    ring
  have h0 : (0 : ℚ) ≤ 13 - 13 * (p : ℚ) / 100 := by
    rw [hx]
    positivity
  unfold gone_exact trunc_toward_zero
  rw [if_pos h0, hx, Rat.floor_natCast_div_natCast]
  norm_cast

/-- Rounding in binary64 never changes the truncated result: the code's `gone`
is the exact reading of the formula. -/
theorem gone_eq_gone_exact (p : Nat) (hp : p ≤ 100) : gone p = gone_exact p := by
  rw [gone_eq_div p hp, gone_exact_eq_div p hp]

/-- The commands of `draw_battery_proc`: the two outlines, then the fill when
the guard passes. -/
theorem issued_draw_battery_proc (w : World) (layer : Ptr) (ctx : GContext) :
    issued (draw_battery_proc w layer) ctx =
      [DrawOp.draw_rect ⟨2, 0, 5, 2⟩ GColor.GColorWhite,
       DrawOp.draw_rect battery_housing GColor.GColorWhite] ++
      (if 14 - gone w.battery.charge_percent ≥ 2 then
        [DrawOp.fill_rect ⟨2, 4 + gone w.battery.charge_percent, 5,
            14 - gone w.battery.charge_percent⟩ 0 GCornerMask.GCornerNone GColor.GColorWhite]
       else []) := by
  unfold issued draw_battery_proc
  by_cases h : 14 - gone w.battery.charge_percent ≥ 2 <;>
    simp [h, battery_state_service_peek, graphics_fill_rect, graphics_draw_rect,
      graphics_context_set_fill_color, graphics_context_set_stroke_color]

/-! ## Battery fill: properties -/

/-- C2: for every charge percentage `p` in 0..100 the value of `gone` is the
exact rational `13 - 13p/100` truncated toward zero, and the fill height
`14 - gone` is non-negative and at most the interior height of the housing
rectangle `GRect(0, 2, 9, 18)`; it is the height of any fill that
`draw_battery_proc` issues. -/
theorem C2_fill_height_within_housing (p : Nat) (hp : p ≤ 100) :
    gone p = gone_exact p ∧ 0 ≤ 14 - gone p ∧ 14 - gone p ≤ battery_housing.interior_height ∧
    ∀ (w : World) (layer : Ptr) (ctx : GContext), w.battery.charge_percent = p →
      ∀ rect r c f, DrawOp.fill_rect rect r c f ∈ issued (draw_battery_proc w layer) ctx →
        rect.h = 14 - gone p := by
  refine ⟨gone_eq_gone_exact p hp, ?_, ?_, ?_⟩
  · rw [gone_eq_div p hp]
    omega
  · rw [gone_eq_div p hp]
    simp only [battery_housing, GRect.interior_height]
    omega
  · intro w layer ctx hw rect r c f hmem
    rw [issued_draw_battery_proc, hw] at hmem
    by_cases h : 14 - gone p ≥ 2
    · simp [h, battery_housing] at hmem
      rw [hmem.1]
    · simp [h, battery_housing] at hmem

/-- C2 at a charge of 100 percent. -/
theorem C2_fill_height_within_housing_witness :
    gone 100 = gone_exact 100 ∧ 0 ≤ 14 - gone 100 ∧
    14 - gone 100 ≤ battery_housing.interior_height ∧
    ∀ (w : World) (layer : Ptr) (ctx : GContext), w.battery.charge_percent = 100 →
      ∀ rect r c f, DrawOp.fill_rect rect r c f ∈ issued (draw_battery_proc w layer) ctx →
        rect.h = 14 - gone 100 :=
  C2_fill_height_within_housing 100 (by decide)

/-- C3: for every charge percentage (0..100 included), every fill that
`draw_battery_proc` issues has the height `14 - gone`, which is then at least
2, and when `14 - gone` is below 2 no fill is issued at all. -/
theorem C3_no_degenerate_fill (w : World) (layer : Ptr) (ctx : GContext) :
    (∀ rect r c f, DrawOp.fill_rect rect r c f ∈ issued (draw_battery_proc w layer) ctx →
      rect.h = 14 - gone w.battery.charge_percent ∧ 2 ≤ rect.h) ∧
    (14 - gone w.battery.charge_percent < 2 →
      ∀ op ∈ issued (draw_battery_proc w layer) ctx, op.isFillRect = false) := by
  rw [issued_draw_battery_proc]
  by_cases h : 14 - gone w.battery.charge_percent ≥ 2
  · refine ⟨?_, fun hlt => absurd h (by omega)⟩
    intro rect r c f hmem
    simp [h, battery_housing] at hmem
    rw [hmem.1]
    exact ⟨rfl, h⟩
  · refine ⟨?_, ?_⟩
    · intro rect r c f hmem
      simp [h, battery_housing] at hmem
    · intro _ op hop
      simp [h] at hop
      rcases hop with rfl | rfl <;> rfl

/-- C3 at the two lowest charges: at 0 percent no fill is issued, and at
1 percent the fill that is issued is 2 pixels high. -/
theorem C3_no_degenerate_fill_witness :
    (∀ op ∈ issued (draw_battery_proc (World.start (discharging 0) true 0 0 []) none)
        blank_context, op.isFillRect = false) ∧
    (∀ rect r c f, DrawOp.fill_rect rect r c f ∈
        issued (draw_battery_proc (World.start (discharging 1) true 0 0 []) none) blank_context →
      rect.h = 14 - gone 1 ∧ 2 ≤ rect.h) :=
  ⟨(C3_no_degenerate_fill (World.start (discharging 0) true 0 0 []) none blank_context).2
      (by decide),
   (C3_no_degenerate_fill (World.start (discharging 1) true 0 0 []) none blank_context).1⟩

/-- C4: for every charge percentage in 0..100, `draw_battery_proc` issues the
interior fill exactly when the charge is nonzero, and that fill is then the
rectangle `GRect(2, 4 + gone, 5, 14 - gone)` of height at least 2. -/
theorem C4_fill_issued_iff_nonzero (w : World) (layer : Ptr) (ctx : GContext)
    (hp : w.battery.charge_percent ≤ 100) :
    ((∃ op ∈ issued (draw_battery_proc w layer) ctx, op.isFillRect = true) ↔
      1 ≤ w.battery.charge_percent) ∧
    (1 ≤ w.battery.charge_percent →
      2 ≤ 14 - gone w.battery.charge_percent ∧
      DrawOp.fill_rect ⟨2, 4 + gone w.battery.charge_percent, 5,
          14 - gone w.battery.charge_percent⟩ 0 GCornerMask.GCornerNone GColor.GColorWhite
        ∈ issued (draw_battery_proc w layer) ctx) := by
  rw [issued_draw_battery_proc]
  have hg := gone_eq_div w.battery.charge_percent hp
  by_cases h : 14 - gone w.battery.charge_percent ≥ 2
  · have h1 : 1 ≤ w.battery.charge_percent := by
      rw [hg] at h
      omega
    simp [h, h1, DrawOp.isFillRect]
  · have h0 : ¬ 1 ≤ w.battery.charge_percent := by
      rw [hg] at h
      omega
    simp [h, h0, DrawOp.isFillRect]

/-- C4 at a charge of 1 percent: the fill is issued. -/
theorem C4_fill_issued_iff_nonzero_witness :
    ∃ op ∈ issued (draw_battery_proc (World.start (discharging 1) true 0 0 []) none)
      blank_context, op.isFillRect = true :=
  (C4_fill_issued_iff_nonzero (World.start (discharging 1) true 0 0 []) none blank_context
    (by decide)).1.2 (by decide)

/-- C9: the fill height `14 - gone` is monotonically non-decreasing in the
charge percentage over 0..100, and it is strictly larger at a charge of 50
than at a charge of 0. -/
theorem C9_fill_height_monotone (p q : Nat) (hpq : p ≤ q) (hq : q ≤ 100) :
    14 - gone p ≤ 14 - gone q ∧ 14 - gone 50 > 14 - gone 0 := by
  rw [gone_eq_div p (by omega), gone_eq_div q hq, gone_eq_div 50 (by decide),
    gone_eq_div 0 (by decide)]
  omega

/-- C9 for the redraw at 50 percent and the redraw at 0 percent. -/
theorem C9_fill_height_monotone_witness :
    14 - gone 0 ≤ 14 - gone 50 ∧ 14 - gone 50 > 14 - gone 0 :=
  C9_fill_height_monotone 0 50 (by decide) (by decide)

/-- C10 (defect): at a charge of 10 percent `gone` is 11, so the fill that
`draw_battery_proc` issues is `GRect(2, 15, 5, 3)`: 3 pixels high, not the 2
pixels of the comment. -/
theorem C10_ten_percent_fill_is_three :
    gone 10 = 11 ∧ 14 - gone 10 = 3 ∧
    issued (draw_battery_proc (World.start (discharging 10) true 0 0 []) none) blank_context =
      [DrawOp.draw_rect ⟨2, 0, 5, 2⟩ GColor.GColorWhite,
       DrawOp.draw_rect ⟨0, 2, 9, 18⟩ GColor.GColorWhite,
       DrawOp.fill_rect ⟨2, 15, 5, 3⟩ 0 GCornerMask.GCornerNone GColor.GColorWhite] := by
  refine ⟨by decide, by decide, by decide⟩

/-! ## Connectivity indicator -/

/-- C5: `draw_bluetooth_proc` has two outcomes, chosen by the peeked connection
flag.  Connected: one outline, of the path behind `s_bluetooth_path_ptr`, white
and one pixel wide.  Disconnected: that outline followed by one outline of the
path behind `s_strikeout_path_ptr`, red and two pixels wide. -/
theorem C5_bluetooth_rendering (w : World) (layer : Ptr) (ctx : GContext) :
    (connection_service_peek_pebble_app_connection w = true →
      issued (draw_bluetooth_proc w layer) ctx =
        [DrawOp.draw_outline w.s_bluetooth_path_ptr GColor.GColorWhite 1]) ∧
    (connection_service_peek_pebble_app_connection w = false →
      issued (draw_bluetooth_proc w layer) ctx =
        [DrawOp.draw_outline w.s_bluetooth_path_ptr GColor.GColorWhite 1] ++
        [DrawOp.draw_outline w.s_strikeout_path_ptr GColor.GColorRed 2]) := by
  constructor <;> intro h <;>
    simp [issued, draw_bluetooth_proc, h, gpath_draw_outline, graphics_context_set_stroke_width,
      graphics_context_set_stroke_color]

/-- C5 in the world right after `main_window_load`, connected and not. -/
theorem C5_bluetooth_rendering_witness :
    issued (draw_bluetooth_proc
        (main_window_load (World.start (discharging 50) true 0 0 []) window_144x168) none)
      blank_context = [DrawOp.draw_outline (some 4) GColor.GColorWhite 1] ∧
    issued (draw_bluetooth_proc
        (main_window_load (World.start (discharging 50) false 0 0 []) window_144x168) none)
      blank_context = [DrawOp.draw_outline (some 4) GColor.GColorWhite 1,
        DrawOp.draw_outline (some 5) GColor.GColorRed 2] :=
  ⟨(C5_bluetooth_rendering
      (main_window_load (World.start (discharging 50) true 0 0 []) window_144x168) none
      blank_context).1 (by decide),
   (C5_bluetooth_rendering
      (main_window_load (World.start (discharging 50) false 0 0 []) window_144x168) none
      blank_context).2 (by decide)⟩

/-- After `setup_bluetooth_path` the two static pointers lead to paths made
from `BLUETOOTH_PATH_INFO` and `STRIKEOUT_PATH_INFO`. -/
theorem setup_bluetooth_path_info (w : World) (h : w.gpaths = []) :
    (setup_bluetooth_path w).gpath_info (setup_bluetooth_path w).s_bluetooth_path_ptr =
      some BLUETOOTH_PATH_INFO ∧
    (setup_bluetooth_path w).gpath_info (setup_bluetooth_path w).s_strikeout_path_ptr =
      some STRIKEOUT_PATH_INFO := by
  simp [setup_bluetooth_path, gpath_create, World.gpath_info, h]

/-! ## Window lifecycle -/

/-- C6: from a world with no subscription and no live layer, `main_window_load`
makes four layers (three `Layer`s and the `TextLayer`), and
`main_window_unload` right after it leaves no subscription and no live layer,
having destroyed each of the four exactly once; running load and unload a
second time ends in the same empty state again. -/
theorem C6_load_unload_pairing (w : World) (window : Window)
    (hs : w.subscriptions = []) (hl : w.live_layers = []) :
    (main_window_load w window).live_layers =
      [w.next_id, w.next_id + 2, w.next_id + 3, w.next_id + 1] ∧
    (main_window_unload (main_window_load w window) window).subscriptions = [] ∧
    (main_window_unload (main_window_load w window) window).live_layers = [] ∧
    (main_window_unload (main_window_load w window) window).destroyed =
      w.destroyed ++ [w.next_id, w.next_id + 2, w.next_id + 3, w.next_id + 1] ∧
    (main_window_unload (main_window_load
      (main_window_unload (main_window_load w window) window) window) window).subscriptions
      = w.subscriptions ∧
    (main_window_unload (main_window_load
      (main_window_unload (main_window_load w window) window) window) window).live_layers
      = w.live_layers ∧
    (main_window_unload (main_window_load
      (main_window_unload (main_window_load w window) window) window) window).destroyed =
      w.destroyed ++ [w.next_id, w.next_id + 2, w.next_id + 3, w.next_id + 1] ++
        [w.next_id + 6, w.next_id + 8, w.next_id + 9, w.next_id + 7] := by
  obtain ⟨hla, hlt⟩ : w.layers = [] ∧ w.text_layers = [] := by
    simpa [World.live_layers] using hl
  rw [hs, hl]
  simp [main_window_load, main_window_unload, World.live_layers, World.subscriptions,
    layer_create, layer_set_update_proc, layer_add_child, text_layer_create,
    text_layer_set_text_color, text_layer_set_background_color, text_layer_set_font,
    text_layer_set_text_alignment, text_layer_update, text_layer_set_text, text_layer_get_layer,
    battery_state_service_subscribe, setup_bluetooth_path, gpath_create,
    connection_service_subscribe, handle_minute_tick, tick_timer_service_subscribe,
    handle_battery, handle_bluetooth, layer_mark_dirty, tick_timer_service_unsubscribe,
    connection_service_unsubscribe, battery_state_service_unsubscribe, layer_destroy,
    text_layer_destroy, window_get_root_layer, layer_get_frame, hla, hlt, Nat.add_assoc]

/-- C6 from the world at process start, on a 144 by 168 display. -/
theorem C6_load_unload_pairing_witness :
    (main_window_load (World.start (discharging 50) true 0 0 []) window_144x168).live_layers =
      [0, 2, 3, 1] ∧
    (main_window_unload (main_window_load (World.start (discharging 50) true 0 0 [])
      window_144x168) window_144x168).subscriptions = [] ∧
    (main_window_unload (main_window_load (World.start (discharging 50) true 0 0 [])
      window_144x168) window_144x168).live_layers = [] ∧
    (main_window_unload (main_window_load (World.start (discharging 50) true 0 0 [])
      window_144x168) window_144x168).destroyed = [0, 2, 3, 1] :=
  have h := C6_load_unload_pairing (World.start (discharging 50) true 0 0 []) window_144x168
    (by decide) (by decide)
  ⟨h.1, h.2.1, h.2.2.1, h.2.2.2.1⟩

/-- C7 (defect): after `main_window_load` and `main_window_unload` from the
world at process start, the two paths made by `setup_bluetooth_path` are still
live, and a second load and unload leaves four. -/
theorem C7_paths_outlive_unload :
    (main_window_load (World.start (discharging 50) true 0 0 []) window_144x168).live_objects =
      [0, 2, 3, 1, 4, 5] ∧
    (main_window_unload (main_window_load (World.start (discharging 50) true 0 0 [])
      window_144x168) window_144x168).live_objects = [4, 5] ∧
    (main_window_unload (main_window_load (World.start (discharging 50) true 0 0 [])
      window_144x168) window_144x168).gpaths =
      [{ id := 4, info := BLUETOOTH_PATH_INFO }, { id := 5, info := STRIKEOUT_PATH_INFO }] ∧
    (main_window_unload (main_window_load (main_window_unload (main_window_load
      (World.start (discharging 50) true 0 0 []) window_144x168) window_144x168)
      window_144x168) window_144x168).live_objects = [4, 5, 10, 11] := by
  refine ⟨by decide, by decide, by decide, by decide⟩

/-! ## Clock text -/

/-- Digit generation never returns an empty list once it may take a step. -/
theorem toDigitsCore_ne_nil (b fuel n : Nat) (ds : List Char) (hf : 0 < fuel) :
    Nat.toDigitsCore b fuel n ds ≠ [] := by
  induction fuel generalizing n ds with
  | zero => omega
  | succ k ih =>
    unfold Nat.toDigitsCore
    simp only
    split
    · simp
    · cases k with
      | zero => simp [Nat.toDigitsCore]
      | succ j => exact ih _ _ (by omega)

/-- A field printed by `%02d` takes at least two characters. -/
theorem two_le_length_two_digits (n : Nat) : 2 ≤ (two_digits n).length := by
  unfold two_digits
  have h : Nat.toDigits 10 n ≠ [] := toDigitsCore_ne_nil 10 (n + 1) n [] (by omega)
  have hpos : 0 < (Nat.toDigits 10 n).length := List.length_pos.mpr h
  simp only
  split
  · simp only [List.length_cons]
    omega
  · omega

/-- A field below 100 is printed by `%02d` as exactly its two decimal digits. -/
theorem two_digits_of_lt (n : Nat) (h : n < 100) :
    two_digits n = [Nat.digitChar (n / 10), Nat.digitChar (n % 10)] := by
  interval_cases n <;> rfl

/-- The expansion of the format `%T`. -/
theorem strftime_expand_T (t : Tm) :
    strftime_expand ['%', 'T'] t =
      some (two_digits t.tm_hour ++ [':'] ++ two_digits t.tm_min ++ [':'] ++
        two_digits t.tm_sec) := by
  simp [strftime_expand, strftime_conversion]

/-- The format `%T` expands to at least 8 characters, whatever the time. -/
theorem eight_le_length_expand_T (t : Tm) :
    8 ≤ (two_digits t.tm_hour ++ [':'] ++ two_digits t.tm_min ++ [':'] ++
      two_digits t.tm_sec).length := by
  have h1 := two_le_length_two_digits t.tm_hour
  have h2 := two_le_length_two_digits t.tm_min
  have h3 := two_le_length_two_digits t.tm_sec
  simp only [List.length_append, List.length_cons, List.length_nil]
  omega

/-- Given room for 9 bytes, `strftime` with `%T` stores the zero-padded
`HH:MM:SS` of any valid time of day and returns 8. -/
theorem strftime_T_with_room (s : List Char) (maxsize : Nat) (t : Tm) (residue : List Char)
    (hroom : 9 ≤ maxsize) (hh : t.tm_hour < 24) (hm : t.tm_min < 60) (hs : t.tm_sec < 60) :
    strftime s maxsize ['%', 'T'] t residue = (8, store s (spec_clock_string t ++ [NUL])) := by
  unfold strftime
  rw [strftime_expand_T, two_digits_of_lt _ (by omega : t.tm_hour < 100),
    two_digits_of_lt _ (by omega : t.tm_min < 100), two_digits_of_lt _ (by omega : t.tm_sec < 100)]
  have h9 : 8 + 1 ≤ maxsize := hroom
  simp [h9, spec_clock_string]

/-- In the 6 bytes of `s_time_text`, `strftime` with `%T` fails for every time:
it returns 0 and leaves the residue in the array. -/
theorem strftime_T_overflows (s : List Char) (t : Tm) (residue : List Char) :
    strftime s sizeof_s_time_text ['%', 'T'] t residue =
      (0, store s (residue.take sizeof_s_time_text)) := by
  unfold strftime
  rw [strftime_expand_T]
  have h := eight_le_length_expand_T t
  have hsz : sizeof_s_time_text = 6 := rfl
  have hn : ¬ ((two_digits t.tm_hour ++ [':'] ++ two_digits t.tm_min ++ [':'] ++
      two_digits t.tm_sec).length + 1 ≤ sizeof_s_time_text) := by
    rw [hsz]
    omega
  simp only [hn, if_false]

/-- A C string is no longer than the array it is read from. -/
theorem cstr_length_le (a : List Char) : (cstr a).length ≤ a.length := by
  unfold cstr
  induction a with
  | nil => simp
  | cons c rest ih =>
    simp only [List.takeWhile_cons]
    split
    · simp only [List.length_cons]
      omega
    · simp

/-- Storing at most as many bytes as the array has keeps its length. -/
theorem store_take_length (s residue : List Char) (n : Nat) (h : s.length = n) :
    (store s (residue.take n)).length = n := by
  unfold store
  simp only [List.length_append, List.length_drop, List.length_take]
  omega

/-- The array after `handle_minute_tick`. -/
theorem handle_minute_tick_s_time_text (w : World) (t : Tm) (u : TimeUnits) :
    (handle_minute_tick w t u).s_time_text =
      store w.s_time_text (w.strftime_residue.take sizeof_s_time_text) := by
  simp [handle_minute_tick, strftime_T_overflows, text_layer_set_text, text_layer_update]

/-- The array after `main_window_load`. -/
theorem main_window_load_s_time_text (w : World) (window : Window) :
    (main_window_load w window).s_time_text =
      store w.s_time_text (w.strftime_residue.take sizeof_s_time_text) := by
  simp [main_window_load, layer_create, layer_set_update_proc, layer_add_child,
    text_layer_create, text_layer_set_text_color, text_layer_set_background_color,
    text_layer_set_font, text_layer_set_text_alignment, text_layer_update, text_layer_set_text,
    text_layer_get_layer, battery_state_service_subscribe, setup_bluetooth_path, gpath_create,
    connection_service_subscribe, handle_minute_tick, tick_timer_service_subscribe,
    handle_battery, handle_bluetooth, layer_mark_dirty, strftime_T_overflows]

/-- The design of `main_window_load`: the array it leaves is the one `strftime`
made for `localtime(time(NULL))`, before any tick is delivered. -/
theorem main_window_load_renders_now (w : World) (window : Window) :
    (main_window_load w window).s_time_text =
      (strftime w.s_time_text sizeof_s_time_text ['%', 'T'] (localtime w (time w))
        w.strftime_residue).2 := by
  rw [main_window_load_s_time_text, strftime_T_overflows]

/-- Whatever a text layer shows is no longer than the array `s_time_text`. -/
theorem displayed_text_length_le (w : World) (text_layer : Ptr) (txt : List Char)
    (h : w.displayed_text text_layer = some txt) : txt.length ≤ w.s_time_text.length := by
  unfold World.displayed_text at h
  split at h
  · rename_i t _
    cases ht : t.text with
    | none => simp [ht] at h
    | some ptr =>
      cases ptr
      simp only [ht, Option.map_some', World.deref, Option.some.injEq] at h
      rw [← h]
      exact cstr_length_le _
  · simp at h
/-- The time layer made by `main_window_load` shows the C string in
`s_time_text`. -/
theorem displayed_text_after_load (w : World) (window : Window) (h : w.text_layers = []) :
    (main_window_load w window).displayed_text (main_window_load w window).s_time_layer =
      some (cstr (main_window_load w window).s_time_text) := by
  simp [World.displayed_text, World.deref, main_window_load, layer_create,
    layer_set_update_proc, layer_add_child,
    text_layer_create, text_layer_set_text_color, text_layer_set_background_color,
    text_layer_set_font, text_layer_set_text_alignment, text_layer_update, text_layer_set_text,
    text_layer_get_layer, battery_state_service_subscribe, setup_bluetooth_path, gpath_create,
    connection_service_subscribe, handle_minute_tick, tick_timer_service_subscribe,
    handle_battery, handle_bluetooth, layer_mark_dirty, h]

/-- A tick on the world that `main_window_load` made: the time layer shows
the C string in `s_time_text`. -/
theorem displayed_text_after_tick (w : World) (window : Window) (t : Tm) (u : TimeUnits)
    (h : w.text_layers = []) :
    (handle_minute_tick (main_window_load w window) t u).displayed_text
        (main_window_load w window).s_time_layer =
      some (cstr (handle_minute_tick (main_window_load w window) t u).s_time_text) := by
  simp [World.displayed_text, World.deref, main_window_load, layer_create,
    layer_set_update_proc, layer_add_child,
    text_layer_create, text_layer_set_text_color, text_layer_set_background_color,
    text_layer_set_font, text_layer_set_text_alignment, text_layer_update, text_layer_set_text,
    text_layer_get_layer, battery_state_service_subscribe, setup_bluetooth_path, gpath_create,
    connection_service_subscribe, handle_minute_tick, tick_timer_service_subscribe,
    handle_battery, handle_bluetooth, layer_mark_dirty, h]

/-- C1 (defect): at 09:05:03 the specification asks for the 8 characters
`09:05:03`, and `strftime` would produce them in 9 bytes.  In the 6 bytes of
`s_time_text` the call of `handle_minute_tick` fails (returns 0), and whatever
the C library leaves in the array, the text that the time layer then shows has
at most 6 characters and is not `09:05:03`. -/
theorem C1_clock_text_lacks_room (residue : List Char) :
    spec_clock_string ⟨3, 5, 9⟩ = ['0', '9', ':', '0', '5', ':', '0', '3'] ∧
    strftime (s_time_text_init ++ [NUL, NUL, NUL]) 9 ['%', 'T'] ⟨3, 5, 9⟩ residue =
      (8, ['0', '9', ':', '0', '5', ':', '0', '3', NUL]) ∧
    (strftime s_time_text_init sizeof_s_time_text ['%', 'T'] ⟨3, 5, 9⟩ residue).1 = 0 ∧
    ∃ txt,
      (handle_minute_tick
          (main_window_load (World.start (discharging 50) true 0 0 residue) window_144x168)
          ⟨3, 5, 9⟩ TimeUnits.SECOND_UNIT).displayed_text
        (main_window_load (World.start (discharging 50) true 0 0 residue)
          window_144x168).s_time_layer = some txt ∧
      txt.length ≤ 6 ∧ txt ≠ ['0', '9', ':', '0', '5', ':', '0', '3'] := by
  refine ⟨by decide, ?_, ?_, ?_⟩
  · rw [strftime_T_with_room _ _ _ _ (by decide) (by decide) (by decide) (by decide)]
    decide
  · rw [strftime_T_overflows]
  · have hd := displayed_text_after_tick (World.start (discharging 50) true 0 0 residue)
      window_144x168 ⟨3, 5, 9⟩ TimeUnits.SECOND_UNIT rfl
    refine ⟨_, hd, ?_⟩
    have hlen : (cstr (handle_minute_tick
        (main_window_load (World.start (discharging 50) true 0 0 residue) window_144x168)
        ⟨3, 5, 9⟩ TimeUnits.SECOND_UNIT).s_time_text).length ≤ 6 := by
      refine le_trans (cstr_length_le _) (le_of_eq ?_)
      rw [handle_minute_tick_s_time_text]
      apply store_take_length
      rw [main_window_load_s_time_text]
      apply store_take_length
      rfl
    refine ⟨hlen, ?_⟩
    intro heq
    rw [heq] at hlen
    simp at hlen

/-- C8 (defect): `main_window_load` does format `localtime(time(NULL))` at
once, but into the 6-byte array.  At 09:05:03 the time layer then never shows
`09:05:03`; with a C library that leaves the array untouched on failure it
shows the placeholder `00:00`, and with one that stores a terminator first it
shows the empty string. -/
theorem C8_text_after_load_is_residue :
    localtime (World.start (discharging 50) true 32703 0 []) 32703 = ⟨3, 5, 9⟩ ∧
    (∀ residue : List Char,
      (main_window_load (World.start (discharging 50) true 32703 0 residue)
          window_144x168).displayed_text
        (main_window_load (World.start (discharging 50) true 32703 0 residue)
          window_144x168).s_time_layer ≠ some ['0', '9', ':', '0', '5', ':', '0', '3']) ∧
    (main_window_load (World.start (discharging 50) true 32703 0 s_time_text_init)
        window_144x168).displayed_text
      (main_window_load (World.start (discharging 50) true 32703 0 s_time_text_init)
        window_144x168).s_time_layer = some ['0', '0', ':', '0', '0'] ∧
    (main_window_load (World.start (discharging 50) true 32703 0 [NUL])
        window_144x168).displayed_text
      (main_window_load (World.start (discharging 50) true 32703 0 [NUL])
        window_144x168).s_time_layer = some [] := by
  refine ⟨by decide, ?_, ?_, ?_⟩
  · intro residue heq
    have hlen := displayed_text_length_le _ _ _ heq
    rw [main_window_load_s_time_text] at hlen
    have h6 : (store (World.start (discharging 50) true 32703 0 residue).s_time_text
        (List.take sizeof_s_time_text
          (World.start (discharging 50) true 32703 0 residue).strftime_residue)).length =
        sizeof_s_time_text := store_take_length _ _ _ rfl
    rw [h6] at hlen
    exact absurd hlen (by decide)
  · rw [displayed_text_after_load _ _ rfl, main_window_load_s_time_text]
    decide
  · rw [displayed_text_after_load _ _ rfl, main_window_load_s_time_text]
    decide

end Classio
